import Mathlib

/-!
# Verification of the velowm master-stack tiling window manager

This file is a shallow embedding, in Lean 4, of the pure computational
content of the velowm window manager (a Rust X11 tiling window manager),
together with theorems settling the specification claims about it.

Conventions used throughout:
* Rust `u32` arithmetic is modelled on `Nat`.  Rust `saturating_sub` on
  unsigned integers coincides with truncated subtraction on `Nat`, so `-`
  on `Nat` is the exact model of `saturating_sub`.  Additions and
  multiplications that could in principle wrap at `2^32` are modelled
  exactly on `Nat`; every claim is about values far below `2^32`.
* Rust `i32` values are modelled on `Int`; an `as u32` cast of an `i32`
  value is the two's-complement reinterpretation, i.e. reduction mod `2^32`
  (`intAsU32` below).
* Fallible operations return `Option` / `Except` exactly where the Rust
  code returns `Option` / `Result` or where an X call can fail.
-/

/-! ## Layout engine (src/ui/layout.rs)

`MasterStackLayout::relayout` computes, from the number `n` of tiled
windows, the monitor rectangle, the configured gaps and the dock strut,
the geometry assigned to each tiled window (index 0 is the master).
The master width ratio is fixed at `0.5` in `MasterStackLayout::new`;
`(usable_width as f32 * 0.5) as u32` is exactly `usable_width / 2` for
every monitor width below `2^24` (an `f32` represents such integers
exactly and multiplication by `0.5` is exact), so the embedding uses
`usable_width / 2`.  Monitor coordinates from Xinerama (`x_org`, `y_org`)
are non-negative in every configuration the claims concern, so they are
modelled as `Nat` (the code casts them `as u32` before adding gaps). -/

structure Monitor where
  x : Nat
  y : Nat
  width : Nat
  height : Nat
deriving DecidableEq, Repr

structure Rect where
  x : Nat
  y : Nat
  width : Nat
  height : Nat
deriving DecidableEq, Repr

/-- Geometry list computed by `MasterStackLayout::relayout`
(src/ui/layout.rs lines 195-260): element `i` is the rectangle issued by
`apply_window_geometry` for the window at index `i` of the tile list.
`dockTop` and `dockHeight` model the `dock_position`/`dock_height` fields;
`relayout` subtracts the dock height from the screen height and shifts the
tiles down by it when the dock sits at the top. -/
def relayoutRects (mon : Monitor) (gaps : Nat) (dockTop : Bool) (dockHeight : Nat)
    (n : Nat) : List Rect :=
  if n = 0 then []
  else
    let yOffset := if dockTop then dockHeight else 0
    let screenHeight := mon.height - dockHeight
    let usableWidth := mon.width - gaps * 2
    let usableHeight := screenHeight - gaps * 2
    let masterWidth := min (max (usableWidth / 2) (usableWidth / 3)) (2 * usableWidth / 3)
    let stackWidth := usableWidth - masterWidth - gaps
    if n = 1 then
      [⟨mon.x + gaps, mon.y + yOffset + gaps, usableWidth, usableHeight⟩]
    else
      let stackCount := n - 1
      let totalStackGaps := gaps * (stackCount - 1)
      let heightPerWindow := (usableHeight - totalStackGaps) / stackCount
      ⟨mon.x + gaps, mon.y + yOffset + gaps, masterWidth, usableHeight⟩ ::
      (List.range stackCount).map (fun stackIndex =>
        ⟨mon.x + gaps + masterWidth + gaps,
         mon.y + yOffset + gaps + stackIndex * (heightPerWindow + gaps),
         stackWidth, heightPerWindow⟩)

/-- The clamp `.max(w/3).min(2*w/3)` applied to `w/2` is the identity:
with the fixed ratio `0.5` the master width is just `usableWidth / 2`. -/
theorem masterWidth_clamp_eq (w : Nat) :
    min (max (w / 2) (w / 3)) (2 * w / 3) = w / 2 := by
  omega

/-- C1: the spec's concrete two-window scenario is wrong about the code.
On a 1920x1080 monitor with gaps 8 and no dock, `relayout` of two windows
gives master width `⌊1904·0.5⌋ = 952` (master rectangle `(8,8,952,1064)`)
and stack rectangle `(968,8,944,1064)`, not the claimed `(8,8,956,1064)`
and `(972,8,940,1064)`. -/
theorem C1_counterexample :
    relayoutRects ⟨0, 0, 1920, 1080⟩ 8 false 0 2 =
      [⟨8, 8, 952, 1064⟩, ⟨968, 8, 944, 1064⟩] ∧
    relayoutRects ⟨0, 0, 1920, 1080⟩ 8 false 0 2 ≠
      [⟨8, 8, 956, 1064⟩, ⟨972, 8, 940, 1064⟩] := by
  constructor
  · rfl
  · decide

/-- C1 (amended): for `n ≥ 2` windows, `relayout` gives the master the left
column of width `⌊W·r⌋ = W/2` at full usable height `H`, and gives stack
window `k` (0-based) the rectangle at `x = mon.x + g + W/2 + g`,
`y = mon.y + yOffset + g + k·(h + g)` of width `W - W/2 - g` and height
`h = (H - g·(n-2)) / (n-1)`, where `W`, `H` are the usable sizes after
subtracting the dock strut and `2g`; on 1920x1080 with gaps 8 the two
windows get `(8,8,952,1064)` and `(968,8,944,1064)`. -/
theorem C1_relayout_master_stack (mon : Monitor) (gaps dockHeight n : Nat)
    (dockTop : Bool) (hn : 2 ≤ n) :
    relayoutRects mon gaps dockTop dockHeight n =
      (let yOffset := if dockTop then dockHeight else 0
       let W := mon.width - gaps * 2
       let H := (mon.height - dockHeight) - gaps * 2
       let h := (H - gaps * (n - 2)) / (n - 1)
       ⟨mon.x + gaps, mon.y + yOffset + gaps, W / 2, H⟩ ::
       (List.range (n - 1)).map (fun k =>
         ⟨mon.x + gaps + W / 2 + gaps,
          mon.y + yOffset + gaps + k * (h + gaps),
          W - W / 2 - gaps, h⟩)) ∧
    relayoutRects ⟨0, 0, 1920, 1080⟩ 8 false 0 2 =
      [⟨8, 8, 952, 1064⟩, ⟨968, 8, 944, 1064⟩] := by
  refine ⟨?_, rfl⟩
  have h0 : n ≠ 0 := by omega
  have h1 : n ≠ 1 := by omega
  simp only [relayoutRects, h0, h1, if_false, masterWidth_clamp_eq]
  have hgaps : n - 1 - 1 = n - 2 := by omega
  rw [hgaps]

/-- Closed witness for `C1_relayout_master_stack` at `n = 2` on the
1920x1080 monitor of the scenario. -/
theorem C1_relayout_master_stack_witness :
    relayoutRects ⟨0, 0, 1920, 1080⟩ 8 false 0 2 =
      (let yOffset := if false then 0 else 0
       let W := 1920 - 8 * 2
       let H := (1080 - 0) - 8 * 2
       let h := (H - 8 * (2 - 2)) / (2 - 1)
       (⟨0 + 8, 0 + yOffset + 8, W / 2, H⟩ : Rect) ::
       (List.range (2 - 1)).map (fun k =>
         ⟨0 + 8 + W / 2 + 8,
          0 + yOffset + 8 + k * (h + 8),
          W - W / 2 - 8, h⟩)) ∧
    relayoutRects ⟨0, 0, 1920, 1080⟩ 8 false 0 2 =
      [⟨8, 8, 952, 1064⟩, ⟨968, 8, 944, 1064⟩] :=
  C1_relayout_master_stack ⟨0, 0, 1920, 1080⟩ 8 0 2 false (by decide)

/-- C2: with exactly one tiled window, `relayout` assigns it the whole
usable rectangle: position `(mon.x + g, mon.y + dockOffset + g)` and size
`(width - 2g, (height - dockHeight) - 2g)`; on 1920x1080 with gaps 8 and
no dock the single window gets `(8, 8, 1904, 1064)`. -/
theorem C2_relayout_single (mon : Monitor) (gaps dockHeight : Nat) (dockTop : Bool) :
    relayoutRects mon gaps dockTop dockHeight 1 =
      [⟨mon.x + gaps,
        mon.y + (if dockTop then dockHeight else 0) + gaps,
        mon.width - gaps * 2,
        (mon.height - dockHeight) - gaps * 2⟩] ∧
    relayoutRects ⟨0, 0, 1920, 1080⟩ 8 false 0 1 = [⟨8, 8, 1904, 1064⟩] := by
  exact ⟨rfl, rfl⟩

/-! ## Command vocabulary (src/utils/command.rs and src/config/command.rs)

Rust `&str` values are modelled as `List Char` so that every operation
reduces in the kernel.  `str::trim` removes Unicode whitespace; the
embedding trims the ASCII whitespace characters, which agree with Rust on
every input the claims concern.  `usize::from_str` accepts an optional
leading `+` followed by one or more ASCII digits and fails on overflow of
the 64-bit range. -/

def isAsciiWhitespace (c : Char) : Bool :=
  c = ' ' || c = '\t' || c = '\n' || c = '\r'

/-- Model of `str::trim`: drop whitespace from both ends. -/
def trimChars (l : List Char) : List Char :=
  ((l.dropWhile isAsciiWhitespace).reverse.dropWhile isAsciiWhitespace).reverse

/-- Model of `str::starts_with`. -/
def startsWithChars (pre l : List Char) : Bool :=
  l.take pre.length == pre

/-- Value of a non-empty all-digit character list, `none` otherwise. -/
def digitsVal (l : List Char) : Option Nat :=
  match l with
  | [] => none
  | l => l.foldl (fun acc c =>
      match acc with
      | none => none
      | some v => if c.isDigit then some (v * 10 + (c.toNat - 48)) else none) (some 0)

/-- Model of `usize::from_str` (`s.parse::<usize>()`): optional leading
`+`, then a non-empty digit string; errors when the value overflows the
64-bit `usize` range. -/
def parseUsize (l : List Char) : Option Nat :=
  let body := match l with
    | '+' :: rest => rest
    | _ => l
  (digitsVal body).bind fun v =>
    if v < 18446744073709551616 then some v else none

/-- Result type of the Rust `FromStr` implementations
(`Result<Command, String>`). -/
inductive CmdResult (α : Type) where
  | ok (val : α)
  | err (msg : List Char)
deriving DecidableEq

/-- Command enum of src/utils/command.rs (the variant used by
`config::loader` and `velowm_core::wm`).  Note: the snapshot has no
`ToggleFullscreen` variant even though `config/loader.rs` and
`velowm_core/wm.rs` construct and match `Command::ToggleFullscreen`. -/
inductive Command where
  | Exit
  | Close
  | Spawn (cmd : List Char)
  | Workspace (idx : Nat)
  | ToggleFloat
deriving DecidableEq

/-- Model of `Command::from_str` in src/utils/command.rs lines 14-36. -/
def Command.from_str (s : List Char) : CmdResult Command :=
  if s = "exit".data then .ok .Exit
  else if s = "close".data then .ok .Close
  else if s = "toggle_float".data then .ok .ToggleFloat
  else if startsWithChars "spawn ".data s then .ok (.Spawn (s.drop 6))
  else if startsWithChars "workspace".data s then
    match parseUsize (trimChars (s.drop 9)) with
    | none => .err ("Invalid workspace index: ".data ++ s.drop 9)
    | some idx =>
      if idx = 0 ∨ idx > 10 then .err "Workspace index must be between 1 and 10".data
      else .ok (.Workspace (idx - 1))
  else .err ("Unknown command: ".data ++ s)

/-- Command enum of src/config/command.rs: only `Exit`, `Close`,
`Spawn`. -/
inductive ConfigCommand where
  | Exit
  | Close
  | Spawn (cmd : List Char)
deriving DecidableEq

/-- Model of `Command::from_str` in src/config/command.rs lines 12-23. -/
def ConfigCommand.from_str (s : List Char) : CmdResult ConfigCommand :=
  if s = "exit".data then .ok .Exit
  else if s = "close".data then .ok .Close
  else if startsWithChars "spawn ".data s then .ok (.Spawn (s.drop 6))
  else .err ("Unknown command: ".data ++ s)

/-- C4: evaluation of both referenced parsers.  The recognised inputs
behave as claimed except `"toggle_fullscreen"`: the utils parser returns
`Err("Unknown command: toggle_fullscreen")` and its `Command` enum has no
`ToggleFullscreen` variant, although `config/loader.rs` in the same crate
constructs `Command::ToggleFullscreen`, writes `command =
"toggle_fullscreen"` into the generated default config, and
`velowm_core/wm.rs` matches on `Command::ToggleFullscreen`; the config
variant additionally rejects `"toggle_float"`. -/
theorem C4_command_parser_eval :
    Command.from_str "exit".data = .ok .Exit ∧
    Command.from_str "close".data = .ok .Close ∧
    Command.from_str "toggle_float".data = .ok .ToggleFloat ∧
    Command.from_str "spawn alacritty".data = .ok (.Spawn "alacritty".data) ∧
    Command.from_str "workspace1".data = .ok (.Workspace 0) ∧
    Command.from_str "workspace10".data = .ok (.Workspace 9) ∧
    Command.from_str "workspace0".data =
      .err "Workspace index must be between 1 and 10".data ∧
    Command.from_str "workspace11".data =
      .err "Workspace index must be between 1 and 10".data ∧
    Command.from_str "toggle_fullscreen".data =
      .err "Unknown command: toggle_fullscreen".data ∧
    Command.from_str "workspace 3".data = .ok (.Workspace 2) ∧
    Command.from_str "workspace+3".data = .ok (.Workspace 2) ∧
    ConfigCommand.from_str "toggle_fullscreen".data =
      .err "Unknown command: toggle_fullscreen".data ∧
    ConfigCommand.from_str "toggle_float".data =
      .err "Unknown command: toggle_float".data := by
  decide

/-! ## Key name resolution (src/config/keybind.rs and src/utils/keybind.rs)

`get_keysym_for_key` lowercases the configured key name
(`key.to_lowercase()`, modelled as `Char.toLower` on each character,
which agrees with Rust on ASCII names) and matches it against the
recognised names; every unrecognised name falls through to the default
arm `_ => keysym::XK_w` (`0x77`). -/

/-- Key-name/keysym pairs of the `match` in src/config/keybind.rs lines
14-56: letters, digits and `"space"`; a Rust `match` on string literals
is a first-match lookup over these pairs with default arm
`_ => keysym::XK_w`. -/
def config_keysym_table : List (List Char × Nat) :=
  [("a".data, 0x61), ("b".data, 0x62), ("c".data, 0x63), ("d".data, 0x64),
   ("e".data, 0x65), ("f".data, 0x66), ("g".data, 0x67), ("h".data, 0x68),
   ("i".data, 0x69), ("j".data, 0x6a), ("k".data, 0x6b), ("l".data, 0x6c),
   ("m".data, 0x6d), ("n".data, 0x6e), ("o".data, 0x6f), ("p".data, 0x70),
   ("q".data, 0x71), ("r".data, 0x72), ("s".data, 0x73), ("t".data, 0x74),
   ("u".data, 0x75), ("v".data, 0x76), ("w".data, 0x77), ("x".data, 0x78),
   ("y".data, 0x79), ("z".data, 0x7a),
   ("0".data, 0x30), ("1".data, 0x31), ("2".data, 0x32), ("3".data, 0x33),
   ("4".data, 0x34), ("5".data, 0x35), ("6".data, 0x36), ("7".data, 0x37),
   ("8".data, 0x38), ("9".data, 0x39), ("space".data, 0x20)]

/-- Key-name/keysym pairs of the `match` in src/utils/keybind.rs lines
12-43: letters only; default arm `_ => keysym::XK_w`. -/
def utils_keysym_table : List (List Char × Nat) :=
  [("a".data, 0x61), ("b".data, 0x62), ("c".data, 0x63), ("d".data, 0x64),
   ("e".data, 0x65), ("f".data, 0x66), ("g".data, 0x67), ("h".data, 0x68),
   ("i".data, 0x69), ("j".data, 0x6a), ("k".data, 0x6b), ("l".data, 0x6c),
   ("m".data, 0x6d), ("n".data, 0x6e), ("o".data, 0x6f), ("p".data, 0x70),
   ("q".data, 0x71), ("r".data, 0x72), ("s".data, 0x73), ("t".data, 0x74),
   ("u".data, 0x75), ("v".data, 0x76), ("w".data, 0x77), ("x".data, 0x78),
   ("y".data, 0x79), ("z".data, 0x7a)]

/-- Model of `get_keysym_for_key` in src/config/keybind.rs lines 14-56:
lowercase the key name (`key.to_lowercase()`), look it up in the match
table, and fall through to `XK_w` (`0x77`). -/
def config_get_keysym_for_key (key : List Char) : Nat :=
  ((config_keysym_table.find? (fun p => p.1 == key.map Char.toLower)).map
    Prod.snd).getD 0x77

/-- Model of `get_keysym_for_key` in src/utils/keybind.rs lines 12-43. -/
def utils_get_keysym_for_key (key : List Char) : Nat :=
  ((utils_keysym_table.find? (fun p => p.1 == key.map Char.toLower)).map
    Prod.snd).getD 0x77

/-- A lookup over an association list whose keys do not contain `k`
returns nothing. -/
theorem find?_none_of_key_not_mem {β : Type} (t : List (List Char × β)) (k : List Char)
    (h : k ∉ t.map Prod.fst) : t.find? (fun p => p.1 == k) = none := by
  induction t with
  | nil => rfl
  | cons p rest ih =>
    simp only [List.map_cons, List.mem_cons, not_or] at h
    have hne : (p.1 == k) = false := by
      simp only [beq_eq_false_iff_ne, ne_eq]
      exact fun hk => h.1 hk.symm
    simp only [List.find?, hne]
    exact ih h.2

/-- C10: every key name whose lowercasing is outside the recognised set
resolves to `XK_w` (`0x77`) in both variants, the same keysym the name
`"w"` resolves to — an unrecognised bind is silently grabbed on the
physical `w` key. -/
theorem C10_unknown_key_is_w (key : List Char)
    (hc : key.map Char.toLower ∉ config_keysym_table.map Prod.fst)
    (hu : key.map Char.toLower ∉ utils_keysym_table.map Prod.fst) :
    config_get_keysym_for_key key = 0x77 ∧
    utils_get_keysym_for_key key = 0x77 ∧
    config_get_keysym_for_key "w".data = 0x77 ∧
    utils_get_keysym_for_key "w".data = 0x77 := by
  refine ⟨?_, ?_, by decide, by decide⟩
  · unfold config_get_keysym_for_key
    rw [find?_none_of_key_not_mem _ _ hc]
    rfl
  · unfold utils_get_keysym_for_key
    rw [find?_none_of_key_not_mem _ _ hu]
    rfl

/-- Closed witness for `C10_unknown_key_is_w` at the key name
`"return"`. -/
theorem C10_unknown_key_is_w_witness :
    config_get_keysym_for_key "return".data = 0x77 ∧
    utils_get_keysym_for_key "return".data = 0x77 ∧
    config_get_keysym_for_key "w".data = 0x77 ∧
    utils_get_keysym_for_key "w".data = 0x77 :=
  C10_unknown_key_is_w "return".data (by decide) (by decide)

/-! ## Modifier masks and KeyPress matching
(src/config/keybind.rs `get_modifier`, src/velowm_core/wm.rs
`handle_keypress`)

The X11 masks are `ShiftMask = 1`, `ControlMask = 4`, `Mod1Mask = 8`
(alt), `Mod4Mask = 64` (super/win). -/

/-- Mask of one `+`-separated modifier token (the closure inside
`get_modifier`): trim, lowercase, match; unknown tokens default to
`Mod1Mask`. -/
def modifier_mask_of_token (tok : List Char) : Nat :=
  let t := (trimChars tok).map Char.toLower
  if t = "alt".data then 8
  else if t = "ctrl".data then 4
  else if t = "shift".data then 1
  else if t = "super".data ∨ t = "win".data then 64
  else 8

/-- Model of Rust `str::split('+')`: split into the (possibly empty)
groups between `+` separators. -/
def splitOnPlus : List Char → List (List Char)
  | [] => [[]]
  | '+' :: rest => [] :: splitOnPlus rest
  | c :: rest =>
    match splitOnPlus rest with
    | [] => [[c]]
    | g :: gs => (c :: g) :: gs

/-- Model of `get_modifier` in src/config/keybind.rs lines 58-69: OR
together the masks of all `+`-separated tokens. -/
def get_modifier (s : List Char) : Nat :=
  (splitOnPlus s).foldl (fun acc tok => acc ||| modifier_mask_of_token tok) 0

/-- Model of the per-bind match condition in
`WindowManager::handle_keypress` (src/velowm_core/wm.rs lines 366-368):
`key_event.state & modifier != 0 && key_event.keycode as u8 == keycode`.
The event keycode is a `u32` cast to `u8` (reduction mod 256); the bind
keycode returned by `XKeysymToKeycode` is already a `u8`. -/
def keypress_bind_matches (state modifierMask eventKeycode bindKeycode : Nat) : Bool :=
  (state &&& modifierMask != 0) && (eventKeycode % 256 == bindKeycode)

/-- C5: the claim is wrong about the code.  With the multi-token modifier
`"alt+shift"` (mask `9`), a KeyPress whose state is only `shift` (`1`) —
a proper subset of the mask — still matches a bind with equal keycode,
because the code tests `state & modifier != 0` (any shared bit), not
`state & modifier == modifier`. -/
theorem C5_counterexample :
    get_modifier "alt+shift".data = 9 ∧
    keypress_bind_matches 1 (get_modifier "alt+shift".data) 25 25 = true ∧
    1 &&& get_modifier "alt+shift".data ≠ get_modifier "alt+shift".data := by
  decide

/-- C5 (amended): a bind's action is executed iff the event's keycode
truncated to 8 bits equals the bind's keycode and the event state shares
at least one bit with the global modifier mask (`state AND modifier ≠
0`); a proper non-empty subset of a multi-token mask therefore still
matches. -/
theorem C5_keypress_match (state modifierMask eventKeycode bindKeycode : Nat) :
    keypress_bind_matches state modifierMask eventKeycode bindKeycode = true ↔
      (state &&& modifierMask ≠ 0 ∧ eventKeycode % 256 = bindKeycode) := by
  simp [keypress_bind_matches]

/-! ## Resize gesture arithmetic (src/velowm_core/wm.rs lines 322-347)

`handle_motion_notify` during a resize computes
`((resize_start_width as i32 + dx) as u32).max(100)`.  The `as u32` cast
of an `i32` is two's-complement reinterpretation, i.e. reduction mod
`2^32`. -/

/-- Two's-complement `as u32` cast of an `i32` value. -/
def intAsU32 (z : Int) : Nat := (z % 4294967296).toNat

/-- Model of the new width (resp. height) computed during a resize
gesture: `((start as i32 + delta) as u32).max(100)` with `start` the
saved start dimension (below `2^31`, so `start as i32 = start`). -/
def resize_new_dim (start : Nat) (delta : Int) : Nat :=
  Nat.max (intAsU32 ((start : Nat) + delta)) 100

/-- C6: the minimum-100 clamp is defeated by the wrapping cast.  With
start dimension `200` and pointer delta `-300` the code computes
`(200 - 300) as u32 = 2^32 - 100 = 4294967196`, not the claimed
`max(100, -100) = 100`; for deltas that keep the sum non-negative the
claimed clamp does hold (`200 + 50 → 250`, `200 - 150 → 100`). -/
theorem C6_resize_wraps :
    resize_new_dim 200 (-300) = 4294967196 ∧
    resize_new_dim 200 (-300) ≠ 100 ∧
    resize_new_dim 200 50 = 250 ∧
    resize_new_dim 200 (-150) = 100 := by
  decide

/-! ## Window records and workspaces
(src/velowm_core/window.rs, src/velowm_core/workspace.rs) -/

/-- Per-client window record (src/velowm_core/window.rs). -/
structure Window where
  id : Nat
  x : Int
  y : Int
  width : Nat
  height : Nat
  is_floating : Bool
  pre_float_x : Int
  pre_float_y : Int
  pre_float_width : Nat
  pre_float_height : Nat
  is_fullscreen : Bool
  pre_fullscreen_x : Int
  pre_fullscreen_y : Int
  pre_fullscreen_width : Nat
  pre_fullscreen_height : Nat
  pre_fullscreen_border_width : Nat
  is_dock : Bool
deriving DecidableEq

/-- Model of `Window::new`: all flags clear, saved geometry zeroed. -/
def Window.new (id : Nat) (x y : Int) (width height : Nat) : Window :=
  ⟨id, x, y, width, height, false, 0, 0, 0, 0, false, 0, 0, 0, 0, 0, false⟩

/-- Workspace (src/velowm_core/workspace.rs): ordered window list plus
focus index, startup index and display name. -/
structure Workspace where
  windows : List Window
  focused : Option Nat
  index : Nat
  name : List Char
deriving DecidableEq

/-- Model of Rust `Iterator::position`: index of the first element
satisfying the predicate. -/
def listPosition (p : α → Bool) : List α → Option Nat
  | [] => none
  | a :: l => if p a then some 0 else (listPosition p l).map (· + 1)

/-- Model of `Workspace::add_window`: append and focus the new last
index. -/
def Workspace.add_window (ws : Workspace) (w : Window) : Workspace :=
  { ws with windows := ws.windows ++ [w], focused := some ws.windows.length }

/-- Model of `Workspace::remove_window` (src/velowm_core/workspace.rs
lines 25-36): locate the first window with the given id, drop it, and if
the removed index was focused set focus to `idx.saturating_sub(1)` when
windows remain, else clear it. -/
def Workspace.remove_window (ws : Workspace) (window_id : Nat) : Workspace :=
  match listPosition (fun w => w.id == window_id) ws.windows with
  | none => ws
  | some idx =>
    let windows := ws.windows.eraseIdx idx
    let focused :=
      if ws.focused = some idx then
        if windows.isEmpty then none else some (idx - 1)
      else ws.focused
    { ws with windows := windows, focused := focused }

/-- Model of `Workspace::get_focused_window`. -/
def Workspace.get_focused_window (ws : Workspace) : Option Window :=
  ws.focused.bind fun idx => ws.windows.get? idx

/-- A successful `listPosition` is a valid index. -/
theorem listPosition_lt_length {p : α → Bool} {l : List α} {i : Nat}
    (h : listPosition p l = some i) : i < l.length := by
  induction l generalizing i with
  | nil => simp [listPosition] at h
  | cons a t ih =>
    by_cases hp : p a
    · simp only [listPosition, if_pos hp, Option.some.injEq] at h
      simp only [List.length_cons]
      omega
    · simp only [listPosition, if_neg hp] at h
      cases hpt : listPosition p t with
      | none => rw [hpt] at h; simp at h
      | some j =>
        rw [hpt] at h
        simp only [Option.map_some', Option.some.injEq] at h
        have := ih hpt
        simp only [List.length_cons]
        omega

/-- `listPosition` succeeds exactly when some element satisfies the
predicate. -/
theorem listPosition_isSome_iff {p : α → Bool} {l : List α} :
    (listPosition p l).isSome ↔ ∃ x ∈ l, p x := by
  induction l with
  | nil => simp [listPosition]
  | cons a t ih =>
    by_cases hp : p a
    · simp [listPosition, hp]
    · simp [listPosition, hp, ih]

/-- C8: `remove_window` drops exactly one window iff one with the given
id is present (otherwise the workspace is untouched); if the removed
index was focused, the new focus is `idx - 1` when windows remain and
`none` otherwise; consequently, removing the focused element from a
workspace of at least two windows leaves `get_focused_window` some. -/
theorem C8_remove_window (ws : Workspace) (window_id : Nat) :
    ((∃ w ∈ ws.windows, w.id = window_id) →
      (ws.remove_window window_id).windows.length + 1 = ws.windows.length) ∧
    ((∀ w ∈ ws.windows, w.id ≠ window_id) →
      ws.remove_window window_id = ws) ∧
    (∀ idx, listPosition (fun w => w.id == window_id) ws.windows = some idx →
      ws.focused = some idx →
      (ws.remove_window window_id).focused =
        if ws.windows.length = 1 then none else some (idx - 1)) ∧
    (∀ idx, 2 ≤ ws.windows.length →
      listPosition (fun w => w.id == window_id) ws.windows = some idx →
      ws.focused = some idx →
      ((ws.remove_window window_id).get_focused_window).isSome = true) := by
  refine ⟨?_, ?_, ?_, ?_⟩
  · intro hmem
    have hsome : (listPosition (fun w => w.id == window_id) ws.windows).isSome := by
      rw [listPosition_isSome_iff]
      obtain ⟨w, hw, hid⟩ := hmem
      exact ⟨w, hw, by simp [hid]⟩
    obtain ⟨idx, hidx⟩ := Option.isSome_iff_exists.mp hsome
    have hlt := listPosition_lt_length hidx
    simp only [Workspace.remove_window, hidx]
    rw [List.length_eraseIdx_of_lt hlt]
    omega
  · intro hnone
    have hpos : listPosition (fun w => w.id == window_id) ws.windows = none := by
      rw [← Option.not_isSome_iff_eq_none, listPosition_isSome_iff]
      rintro ⟨w, hw, hid⟩
      exact hnone w hw (by simpa using hid)
    simp [Workspace.remove_window, hpos]
  · intro idx hidx hfoc
    have hlt := listPosition_lt_length hidx
    by_cases hone : ws.windows.length = 1
    · have he : (ws.windows.eraseIdx idx).isEmpty = true := by
        rw [List.isEmpty_iff_length_eq_zero, List.length_eraseIdx_of_lt hlt]
        omega
      simp [Workspace.remove_window, hidx, hfoc, he, hone]
    · have he : (ws.windows.eraseIdx idx).isEmpty = false := by
        rw [List.isEmpty_eq_false, ← List.length_pos, List.length_eraseIdx_of_lt hlt]
        omega
      simp [Workspace.remove_window, hidx, hfoc, he, hone]
  · intro idx h2 hidx hfoc
    have hlt := listPosition_lt_length hidx
    have he : (ws.windows.eraseIdx idx).isEmpty = false := by
      rw [List.isEmpty_eq_false, ← List.length_pos, List.length_eraseIdx_of_lt hlt]
      omega
    have hget : (ws.windows.eraseIdx idx).get? (idx - 1) ≠ none := by
      intro hcon
      rw [List.get?_eq_none, List.length_eraseIdx_of_lt hlt] at hcon
      omega
    obtain ⟨w, hw⟩ := Option.ne_none_iff_exists'.mp hget
    rw [List.get?_eq_getElem?] at hw
    simp [Workspace.remove_window, hidx, hfoc, he, Workspace.get_focused_window, hw]

/-- Closed witness for `C8_remove_window`: removing the focused second
window of a two-window workspace. -/
theorem C8_remove_window_witness :
    (let ws : Workspace :=
      ⟨[Window.new 1 0 0 10 10, Window.new 2 0 0 10 10], some 1, 0, "Workspace 1".data⟩
     ((∃ w ∈ ws.windows, w.id = 2) →
       (ws.remove_window 2).windows.length + 1 = ws.windows.length) ∧
     ((∀ w ∈ ws.windows, w.id ≠ 2) → ws.remove_window 2 = ws) ∧
     (∀ idx, listPosition (fun w => w.id == 2) ws.windows = some idx →
       ws.focused = some idx →
       (ws.remove_window 2).focused =
         if ws.windows.length = 1 then none else some (idx - 1)) ∧
     (∀ idx, 2 ≤ ws.windows.length →
       listPosition (fun w => w.id == 2) ws.windows = some idx →
       ws.focused = some idx →
       ((ws.remove_window 2).get_focused_window).isSome = true)) :=
  C8_remove_window
    ⟨[Window.new 1 0 0 10 10, Window.new 2 0 0 10 10], some 1, 0, "Workspace 1".data⟩ 2

/-! ## Toggle float (src/velowm_core/wm.rs lines 394-629)

`WindowManager::toggle_float` locates the focused window record and flips
its floating state.  The embedding below captures the full transformation
of that record; the X calls are modelled by explicit parameters:
`childX`/`childY` is the result of `XTranslateCoordinates` (the window's
absolute position as known by the server), `px`/`py` the pointer position
from `XQueryPointer`, `monitors` the Xinerama screen list, and
`screenW`/`screenH` the root screen size used when Xinerama reports no
monitors.  `u32` subtractions such as `monitor.width - float_width` are
modelled as truncated `Nat` subtraction. -/

structure XMonitor where
  x : Int
  y : Int
  width : Nat
  height : Nat
deriving DecidableEq

/-- Floating-window portion of the appearance configuration. -/
structure FloatingConfig where
  center_on_float : Bool
  width : Nat
  height : Nat
deriving DecidableEq

/-- The pointer-containment test of the `find` over `monitors_slice`. -/
def monitorContains (px py : Int) (m : XMonitor) : Bool :=
  decide (m.x ≤ px) && decide (px < m.x + (m.width : Int)) &&
  decide (m.y ≤ py) && decide (py < m.y + (m.height : Int))

/-- Monitor containing the pointer, falling back to the first monitor
(`unwrap_or(&monitors_slice[0])`); `none` when Xinerama reports no
monitors. -/
def pointerMonitor (monitors : List XMonitor) (px py : Int) : Option XMonitor :=
  match monitors with
  | [] => none
  | m0 :: _ => some ((monitors.find? (monitorContains px py)).getD m0)

/-- Model of the record transformation of `toggle_float`
(src/velowm_core/wm.rs lines 441-599) on the focused window.
Floating → tiled: clear the flag and restore the `pre_float` geometry.
Tiled → floating: set the flag, save the translated absolute position and
the current size into `pre_float`; when `center_on_float` is set, centre
the window on the pointer's monitor (or the root screen without
Xinerama) with the configured floating size and overwrite
`pre_float_x/y` with the centred position. -/
def toggle_float_window (cfg : FloatingConfig) (monitors : List XMonitor)
    (screenW screenH : Nat) (px py childX childY : Int) (w : Window) : Window :=
  if w.is_floating then
    { w with is_floating := false, x := w.pre_float_x, y := w.pre_float_y,
             width := w.pre_float_width, height := w.pre_float_height }
  else
    let w1 :=
      { w with is_floating := true, pre_float_x := childX, pre_float_y := childY,
               pre_float_width := w.width, pre_float_height := w.height }
    if cfg.center_on_float then
      match pointerMonitor monitors px py with
      | some mon =>
        let newX := mon.x + (((mon.width - cfg.width) / 2 : Nat) : Int)
        let newY := mon.y + (((mon.height - cfg.height) / 2 : Nat) : Int)
        { w1 with width := cfg.width, height := cfg.height, x := newX, y := newY,
                  pre_float_x := newX, pre_float_y := newY }
      | none =>
        let newX : Int := ((screenW - cfg.width) / 2 : Nat)
        let newY : Int := ((screenH - cfg.height) / 2 : Nat)
        { w1 with width := cfg.width, height := cfg.height, x := newX, y := newY,
                  pre_float_x := newX, pre_float_y := newY }
    else w1

/-- C3: with centre-on-float enabled the claim fails.  A tiled window at
`(8, 8, 956, 1064)` on a 1920x1080 monitor (floating size 800x600,
pointer on the monitor, translated position `(8, 8)`), toggled twice,
ends at the centred position `(560, 240, 956, 1064)`: the size is
restored but the position is the centred one, because the tiled→floating
branch overwrites `pre_float_x/y` with the centred coordinates. -/
theorem C3_counterexample :
    (let cfg : FloatingConfig := ⟨true, 800, 600⟩
     let mons : List XMonitor := [⟨0, 0, 1920, 1080⟩]
     let w0 : Window := Window.new 1 8 8 956 1064
     let w2 := toggle_float_window cfg mons 1920 1080 0 0 8 8
                 (toggle_float_window cfg mons 1920 1080 0 0 8 8 w0)
     (w2.x, w2.y, w2.width, w2.height) = (560, 240, 956, 1064) ∧
     (w2.x, w2.y, w2.width, w2.height) ≠ (8, 8, 956, 1064)) := by
  decide

/-- C3 (amended): toggling float twice on a tiled window restores the
floating flag and restores width and height exactly in every
configuration; the position is restored to the server-translated
pre-float coordinates when centre-on-float is disabled (hence exactly
when those agree with the record), while with centre-on-float enabled the
final position is the pointer-monitor centred position, not the original
one. -/
theorem C3_toggle_float_twice (cfg : FloatingConfig) (monitors : List XMonitor)
    (screenW screenH : Nat) (px py childX childY : Int) (w : Window)
    (hw : w.is_floating = false) :
    (let w2 := toggle_float_window cfg monitors screenW screenH px py childX childY
                 (toggle_float_window cfg monitors screenW screenH px py childX childY w)
     w2.is_floating = false ∧ w2.width = w.width ∧ w2.height = w.height ∧
     (cfg.center_on_float = false → w2.x = childX ∧ w2.y = childY) ∧
     (∀ mon, cfg.center_on_float = true →
       pointerMonitor monitors px py = some mon →
       w2.x = mon.x + (((mon.width - cfg.width) / 2 : Nat) : Int) ∧
       w2.y = mon.y + (((mon.height - cfg.height) / 2 : Nat) : Int))) := by
  by_cases hc : cfg.center_on_float
  · cases hm : pointerMonitor monitors px py with
    | some mon => simp [toggle_float_window, hw, hc, hm]
    | none => simp [toggle_float_window, hw, hc, hm]
  · simp [toggle_float_window, hw, hc]

/-- Closed witness for `C3_toggle_float_twice` with centre-on-float
disabled. -/
theorem C3_toggle_float_twice_witness :
    (let cfg : FloatingConfig := ⟨false, 800, 600⟩
     let mons : List XMonitor := [⟨0, 0, 1920, 1080⟩]
     let w0 : Window := Window.new 1 8 8 956 1064
     let w2 := toggle_float_window cfg mons 1920 1080 0 0 8 8
                 (toggle_float_window cfg mons 1920 1080 0 0 8 8 w0)
     w2.is_floating = false ∧ w2.width = w0.width ∧ w2.height = w0.height ∧
     (cfg.center_on_float = false → w2.x = 8 ∧ w2.y = 8) ∧
     (∀ mon, cfg.center_on_float = true →
       pointerMonitor mons 0 0 = some mon →
       w2.x = mon.x + (((mon.width - cfg.width) / 2 : Nat) : Int) ∧
       w2.y = mon.y + (((mon.height - cfg.height) / 2 : Nat) : Int))) :=
  C3_toggle_float_twice ⟨false, 800, 600⟩ [⟨0, 0, 1920, 1080⟩] 1920 1080 0 0 8 8
    (Window.new 1 8 8 956 1064) rfl

/-! ## Polite close protocol (src/velowm_core/wm.rs lines 848-888) -/

/-- ClientMessage event sent by `close_focused_window` (atoms modelled as
`Nat`; `data0` is `data.l[0]`). -/
structure ClientMessage where
  window : Nat
  message_type : Nat
  format : Nat
  data0 : Nat
deriving DecidableEq

/-- What `close_focused_window` does to the focused window once the dock
guard has passed. -/
inductive CloseAction where
  | send (msg : ClientMessage)
  | destroy
deriving DecidableEq

/-- Model of the ICCCM branch of `close_focused_window`
(src/velowm_core/wm.rs lines 848-888): `protocols` is `some list` when
`XGetWMProtocols` succeeds and `none` when it fails; when the list
contains `WM_DELETE_WINDOW` send the polite ClientMessage, otherwise (or
on failure) destroy the window. -/
def close_protocol_action (wmProtocols wmDeleteWindow focusedWindow : Nat)
    (protocols : Option (List Nat)) : CloseAction :=
  match protocols with
  | some l =>
    if wmDeleteWindow ∈ l then
      .send ⟨focusedWindow, wmProtocols, 32, wmDeleteWindow⟩
    else .destroy
  | none => .destroy

/-- C9: a ClientMessage is sent iff the fetched `WM_PROTOCOLS` list
contains `WM_DELETE_WINDOW`; the message carries `message_type =
WM_PROTOCOLS`, `format = 32` and `data[0] = WM_DELETE_WINDOW`, and no
destroy happens in that case; when the atom is absent or the property
cannot be read, the window is destroyed outright. -/
theorem C9_close_protocol (wmProtocols wmDeleteWindow focusedWindow : Nat)
    (protocols : Option (List Nat)) :
    ((∃ msg, close_protocol_action wmProtocols wmDeleteWindow focusedWindow protocols =
        .send msg) ↔ (∃ l, protocols = some l ∧ wmDeleteWindow ∈ l)) ∧
    (∀ msg, close_protocol_action wmProtocols wmDeleteWindow focusedWindow protocols =
        .send msg →
      msg.window = focusedWindow ∧ msg.message_type = wmProtocols ∧
      msg.format = 32 ∧ msg.data0 = wmDeleteWindow) ∧
    ((protocols = none ∨ ∃ l, protocols = some l ∧ wmDeleteWindow ∉ l) →
      close_protocol_action wmProtocols wmDeleteWindow focusedWindow protocols =
        .destroy) := by
  refine ⟨?_, ?_, ?_⟩
  · constructor
    · rintro ⟨msg, hmsg⟩
      cases protocols with
      | none => simp [close_protocol_action] at hmsg
      | some l =>
        refine ⟨l, rfl, ?_⟩
        by_contra hmem
        simp [close_protocol_action, hmem] at hmsg
    · rintro ⟨l, rfl, hmem⟩
      refine ⟨⟨focusedWindow, wmProtocols, 32, wmDeleteWindow⟩, ?_⟩
      simp [close_protocol_action, hmem]
  · intro msg hmsg
    cases protocols with
    | none => simp [close_protocol_action] at hmsg
    | some l =>
      by_cases hmem : wmDeleteWindow ∈ l
      · simp only [close_protocol_action, if_pos hmem, CloseAction.send.injEq] at hmsg
        subst hmsg
        exact ⟨rfl, rfl, rfl, rfl⟩
      · simp [close_protocol_action, hmem] at hmsg
  · rintro (rfl | ⟨l, rfl, hmem⟩)
    · rfl
    · simp [close_protocol_action, hmem]

/-- Closed witness for `C9_close_protocol` with a protocol list that
contains the delete atom. -/
theorem C9_close_protocol_witness :
    ((∃ msg, close_protocol_action 7 9 42 (some [3, 9]) = .send msg) ↔
      (∃ l, (some [3, 9] : Option (List Nat)) = some l ∧ 9 ∈ l)) ∧
    (∀ msg, close_protocol_action 7 9 42 (some [3, 9]) = .send msg →
      msg.window = 42 ∧ msg.message_type = 7 ∧ msg.format = 32 ∧ msg.data0 = 9) ∧
    (((some [3, 9] : Option (List Nat)) = none ∨
        ∃ l, (some [3, 9] : Option (List Nat)) = some l ∧ 9 ∉ l) →
      close_protocol_action 7 9 42 (some [3, 9]) = .destroy) :=
  C9_close_protocol 7 9 42 (some [3, 9])

/-! ## Workspace switch (src/velowm_core/wm.rs lines 1138-1242)

`WindowManager::switch_to_workspace` is modelled as a transition on the
manager state visible to the claims: the workspace list, the current
workspace index, the root `_NET_CURRENT_DESKTOP` / `_NET_ACTIVE_WINDOW`
properties (written by `update_current_desktop` lines 1383-1399 and
`set_active_window`), the set of currently mapped window ids (the server
effect of `XMapWindow`/`XUnmapWindow`), and the layout engine's tile list
and focused slot.  `layout.add_window` appends to the tile list and (via
`focus_window`) focuses the added id; `layout.clear_windows` empties the
list and clears the focus. -/

structure WMState where
  workspaces : List Workspace
  current_workspace : Nat
  mapped : List Nat
  layoutTiles : List Nat
  layoutFocused : Option Nat
  netCurrentDesktop : Nat
  netActiveWindow : Nat
deriving DecidableEq

/-- First loop of `switch_to_workspace`: `XUnmapWindow` every non-dock
window of the outgoing workspace (drop its id from the mapped set). -/
def unmapNonDock (mapped : List Nat) (ws : List Window) : List Nat :=
  ws.foldl (fun m w => if w.is_dock then m else m.filter (fun i => i != w.id)) mapped

/-- Mapping effect of the second loop: `XMapWindow` every non-dock window
of the incoming workspace. -/
def mapIncomingIds (mapped : List Nat) (ws : List Window) : List Nat :=
  ws.foldl (fun m w => if w.is_dock then m else w.id :: m) mapped

/-- Tile-list effect of the second loop: `layout.add_window` for every
non-dock, non-floating window, in order. -/
def tilesOf (ws : Workspace) : List Nat :=
  ws.windows.foldl (fun ts w => if !w.is_dock && !w.is_floating then ts ++ [w.id] else ts) []

/-- Layout focus left by the second loop: `add_window` focuses each added
window, so the last non-dock, non-floating id wins. -/
def lastTiledId (ws : Workspace) : Option Nat :=
  ws.windows.foldl (fun f w => if !w.is_dock && !w.is_floating then some w.id else f) none

/-- Model of `WindowManager::switch_to_workspace` (src/velowm_core/wm.rs
lines 1138-1242).  Out-of-range or current-index requests return the
state unchanged; otherwise the outgoing non-dock windows are unmapped,
the current index and `_NET_CURRENT_DESKTOP` become `index`, the tile
list is cleared and rebuilt from the incoming workspace, the incoming
non-dock windows are mapped, and the incoming workspace's focused
non-dock window (if any) receives layout focus and
`_NET_ACTIVE_WINDOW`. -/
def switch_to_workspace (st : WMState) (index : Nat) : WMState :=
  if st.workspaces.length ≤ index ∨ index = st.current_workspace then st
  else
    let mapped1 :=
      match st.workspaces.get? st.current_workspace with
      | some cur => unmapNonDock st.mapped cur.windows
      | none => st.mapped
    match st.workspaces.get? index with
    | none =>
      { st with current_workspace := index, netCurrentDesktop := index,
                mapped := mapped1, layoutTiles := [], layoutFocused := none }
    | some newWs =>
      let mapped2 := mapIncomingIds mapped1 newWs.windows
      let tiles := tilesOf newWs
      match newWs.get_focused_window with
      | some fw =>
        if fw.is_dock then
          { st with current_workspace := index, netCurrentDesktop := index,
                    mapped := mapped2, layoutTiles := tiles,
                    layoutFocused := lastTiledId newWs }
        else
          { st with current_workspace := index, netCurrentDesktop := index,
                    mapped := mapped2, layoutTiles := tiles,
                    layoutFocused := some fw.id, netActiveWindow := fw.id }
      | none =>
        { st with current_workspace := index, netCurrentDesktop := index,
                  mapped := mapped2, layoutTiles := tiles,
                  layoutFocused := lastTiledId newWs }

/-- The tile fold produces the filtered id list. -/
theorem tilesOf_foldl (l : List Window) (acc : List Nat) :
    l.foldl (fun ts w => if !w.is_dock && !w.is_floating then ts ++ [w.id] else ts) acc =
      acc ++ (l.filter (fun w => !w.is_dock && !w.is_floating)).map (fun w => w.id) := by
  induction l generalizing acc with
  | nil => simp
  | cons a t ih =>
    cases ha : (!a.is_dock && !a.is_floating) with
    | true =>
      simp only [List.foldl_cons, List.filter_cons, ha, if_true]
      rw [ih]
      simp
    | false =>
      simp only [List.foldl_cons, List.filter_cons, ha]
      rw [if_neg (by simp), if_neg (by simp)]
      exact ih acc

/-- Unmapping only removes ids. -/
theorem unmapNonDock_subset (mapped : List Nat) (ws : List Window) (i : Nat)
    (h : i ∉ mapped) : i ∉ unmapNonDock mapped ws := by
  induction ws generalizing mapped with
  | nil => exact h
  | cons a t ih =>
    simp only [unmapNonDock, List.foldl_cons]
    by_cases ha : a.is_dock
    · rw [if_pos ha]
      exact ih mapped h
    · rw [if_neg ha]
      refine ih _ fun hc => h ?_
      exact (List.mem_filter.mp hc).1

/-- Every non-dock id of the outgoing list is gone after the unmap
loop. -/
theorem unmapNonDock_not_mem (mapped : List Nat) (ws : List Window) (w : Window)
    (hw : w ∈ ws) (hdock : w.is_dock = false) :
    w.id ∉ unmapNonDock mapped ws := by
  induction ws generalizing mapped with
  | nil => cases hw
  | cons a t ih =>
    simp only [unmapNonDock, List.foldl_cons]
    rcases List.mem_cons.mp hw with rfl | hmem
    · rw [if_neg (by simp [hdock])]
      refine unmapNonDock_subset _ _ _ fun hc => ?_
      have := (List.mem_filter.mp hc).2
      simp at this
    · by_cases ha : a.is_dock
      · rw [if_pos ha]
        exact ih _ hmem
      · rw [if_neg ha]
        exact ih _ hmem

/-- An id absent from the base set and from the incoming non-dock windows
is still absent after the map loop. -/
theorem mapIncomingIds_not_mem (mapped : List Nat) (ws : List Window) (i : Nat)
    (hbase : i ∉ mapped) (hids : ∀ v ∈ ws, v.is_dock = false → v.id ≠ i) :
    i ∉ mapIncomingIds mapped ws := by
  induction ws generalizing mapped with
  | nil => exact hbase
  | cons a t ih =>
    simp only [mapIncomingIds, List.foldl_cons]
    by_cases ha : a.is_dock
    · rw [if_pos ha]
      exact ih mapped hbase fun v hv => hids v (List.mem_cons_of_mem a hv)
    · rw [if_neg ha]
      refine ih _ ?_ fun v hv => hids v (List.mem_cons_of_mem a hv)
      intro hc
      rcases List.mem_cons.mp hc with heq | hmem
      · exact hids a (List.mem_cons_self a t) (Bool.eq_false_iff.mpr ha) heq.symm
      · exact hbase hmem

/-- C7: a switch to an out-of-range index or to the current index leaves
the state unchanged; otherwise the current workspace and
`_NET_CURRENT_DESKTOP` become `index`, the layout tile list is exactly
the non-dock, non-floating windows of the target workspace in order, and
every non-dock window of the outgoing workspace whose id does not recur
among the incoming non-dock windows ends up unmapped. -/
theorem C7_switch_to_workspace (st : WMState) (index : Nat) :
    (st.workspaces.length ≤ index ∨ index = st.current_workspace →
      switch_to_workspace st index = st) ∧
    (∀ cur newWs,
      st.workspaces.get? st.current_workspace = some cur →
      st.workspaces.get? index = some newWs →
      index ≠ st.current_workspace →
      (switch_to_workspace st index).current_workspace = index ∧
      (switch_to_workspace st index).netCurrentDesktop = index ∧
      (switch_to_workspace st index).layoutTiles =
        (newWs.windows.filter (fun w => !w.is_dock && !w.is_floating)).map
          (fun w => w.id) ∧
      (∀ w ∈ cur.windows, w.is_dock = false →
        (∀ v ∈ newWs.windows, v.is_dock = false → v.id ≠ w.id) →
        w.id ∉ (switch_to_workspace st index).mapped)) := by
  constructor
  · intro hcase
    rw [switch_to_workspace, if_pos hcase]
  · intro cur newWs hcur hnew hne
    have hlt : index < st.workspaces.length := by
      by_contra hc
      rw [not_lt] at hc
      rw [List.get?_eq_none.mpr hc] at hnew
      simp at hnew
    have hcond : ¬ (st.workspaces.length ≤ index ∨ index = st.current_workspace) := by
      push_neg
      exact ⟨hlt, hne⟩
    have hmain :
        (switch_to_workspace st index).current_workspace = index ∧
        (switch_to_workspace st index).netCurrentDesktop = index ∧
        (switch_to_workspace st index).layoutTiles = tilesOf newWs ∧
        (switch_to_workspace st index).mapped =
          mapIncomingIds (unmapNonDock st.mapped cur.windows) newWs.windows := by
      rw [switch_to_workspace, if_neg hcond, hcur, hnew]
      cases hf : newWs.get_focused_window with
      | some fw =>
        by_cases hd : fw.is_dock
        · simp [hf, hd]
        · simp [hf, hd]
      | none => simp [hf]
    refine ⟨hmain.1, hmain.2.1, ?_, ?_⟩
    · rw [hmain.2.2.1, tilesOf, tilesOf_foldl]
      simp
    · intro w hw hdock hids
      rw [hmain.2.2.2]
      exact mapIncomingIds_not_mem _ _ _
        (unmapNonDock_not_mem st.mapped cur.windows w hw hdock) hids

/-- Closed witness for `C7_switch_to_workspace`: two workspaces with one
window each.  A switch to the out-of-range index 5 and to the current
index 0 both leave the state unchanged; a switch to workspace 1 updates
the current index, the desktop property, the tile list and the mapped
set. -/
theorem C7_switch_to_workspace_witness :
    (let ws0 : Workspace := ⟨[Window.new 1 0 0 10 10], some 0, 0, "Workspace 1".data⟩
     let ws1 : Workspace := ⟨[Window.new 2 0 0 10 10], some 0, 1, "Workspace 2".data⟩
     let st : WMState := ⟨[ws0, ws1], 0, [1], [1], some 1, 0, 1⟩
     switch_to_workspace st 5 = st ∧
     switch_to_workspace st 0 = st ∧
     (switch_to_workspace st 1).current_workspace = 1 ∧
     (switch_to_workspace st 1).netCurrentDesktop = 1 ∧
     (switch_to_workspace st 1).layoutTiles =
       (ws1.windows.filter (fun w => !w.is_dock && !w.is_floating)).map
         (fun w => w.id) ∧
     (∀ w ∈ ws0.windows, w.is_dock = false →
       (∀ v ∈ ws1.windows, v.is_dock = false → v.id ≠ w.id) →
       w.id ∉ (switch_to_workspace st 1).mapped)) := by
  exact
    ⟨(C7_switch_to_workspace _ 5).1 (Or.inl (by decide)),
     (C7_switch_to_workspace _ 0).1 (Or.inr (by decide)),
     (C7_switch_to_workspace
        ⟨[⟨[Window.new 1 0 0 10 10], some 0, 0, "Workspace 1".data⟩,
          ⟨[Window.new 2 0 0 10 10], some 0, 1, "Workspace 2".data⟩],
         0, [1], [1], some 1, 0, 1⟩ 1).2
       ⟨[Window.new 1 0 0 10 10], some 0, 0, "Workspace 1".data⟩
       ⟨[Window.new 2 0 0 10 10], some 0, 1, "Workspace 2".data⟩
       (by decide) (by decide) (by decide)⟩
